import Mathlib

/-!
Shallow embedding of the `logger` Go package (src/logger.go) and proofs of
the specified properties.

The package keeps process-wide state: two severity thresholds, an optional
console logger, an optional file logger, the currently configured log file
handle, and a `sync.Once` latch guarding `Close`.  We model this state
explicitly and each exported function as a state transformer.  OS effects
(opening a file, resolving the working directory) are external capabilities:
their outcomes are passed in as parameters, and opened file descriptors are
tracked in the state by a ledger of handles so that leak/close properties
can be stated.
-/

namespace Logger

/-- Go `type LogLevel int`: an open integer type, compared by `>=`. -/
abbrev LogLevel := Int

/-- Level `DEBUG`, `LogLevel = iota` (rank 0). -/
def DEBUG : LogLevel := 0

/-- Level `INFO` (rank 1). -/
def INFO : LogLevel := 1

/-- Level `ERROR` (rank 2). -/
def ERROR : LogLevel := 2

/-- Level `SUCCESS` (rank 3). -/
def SUCCESS : LogLevel := 3

/-- Level `FAIL` (rank 4). -/
def FAIL : LogLevel := 4

/-- ANSI reset code `"\033[0m"`. -/
def Reset : String := "\x1b[0m"

/-- ANSI red `"\033[31m"`. -/
def Red : String := "\x1b[31m"

/-- ANSI green `"\033[32m"`. -/
def Green : String := "\x1b[32m"

/-- ANSI yellow `"\033[33m"`. -/
def Yellow : String := "\x1b[33m"

/-- ANSI blue `"\033[34m"`. -/
def Blue : String := "\x1b[34m"

/-- A file handle: a fresh numeric descriptor together with the path it was
opened on.  Descriptors are allocated sequentially by the model. -/
abbrev Handle := Nat × String

/-- The package-level mutable state (the `var` block of src/logger.go),
plus a ledger of file handles used to state resource properties:
`openHandles` are descriptors opened by `SetLogFile` and not yet closed,
`closedHandles` are descriptors that have been closed. -/
structure State where
  fileLogger    : Option Handle
  consoleLogger : Bool
  fileLevel     : LogLevel
  consoleLevel  : LogLevel
  logFile       : Option Handle
  closeOnce     : Bool
  openHandles   : List Handle
  closedHandles : List Handle
  nextFd        : Nat
deriving DecidableEq, Repr

/-- Zero-value initial state of the package: both loggers nil, both
levels 0 (= DEBUG), no file, `sync.Once` not yet fired. -/
def initState : State :=
  { fileLogger := none, consoleLogger := false, fileLevel := DEBUG,
    consoleLevel := DEBUG, logFile := none, closeOnce := false,
    openHandles := [], closedHandles := [], nextFd := 0 }

/-- Go `SetConsoleLevel`: sets `consoleLevel` and unconditionally (re)creates
the console logger (`log.New(os.Stdout, ...)`). -/
def setConsoleLevel (level : LogLevel) (s : State) : State :=
  { s with consoleLevel := level, consoleLogger := true }

/-- Go `SetFileLevel`: sets `fileLevel` only. -/
def setFileLevel (level : LogLevel) (s : State) : State :=
  { s with fileLevel := level }

/-- Go `SetLogFile`: `logFile, err = os.OpenFile(path, CREATE|WRONLY|APPEND, 0644)`.
The OS outcome is the parameter `openErr` (`some e` = the open failed with
error `e`).  On failure Go's multiple assignment still stores the nil file
into `logFile` and returns the error, leaving `fileLogger` untouched.  On
success a fresh descriptor is opened (added to the ledger) and becomes both
`logFile` and the sink of a new `fileLogger`.  The previous handle is NOT
closed by the source. -/
def setLogFile (path : String) (openErr : Option String) (s : State) :
    State × Option String :=
  match openErr with
  | some e => ({ s with logFile := none }, some e)
  | none =>
    let h : Handle := (s.nextFd, path)
    ({ s with logFile := some h, fileLogger := some h,
              openHandles := h :: s.openHandles, nextFd := s.nextFd + 1 },
     none)

/-- Go `InitDefaultLogFile`: resolves a directory via `getWorkingDir` (an
external capability, outcome passed as `wd`) and calls `SetLogFile` on
`dir/out.log`; an error from `getWorkingDir` is returned directly. -/
def initDefaultLogFile (wd : Except String String) (openErr : Option String)
    (s : State) : State × Option String :=
  match wd with
  | .error e => (s, some e)
  | .ok dir => setLogFile (dir ++ "/out.log") openErr s

/-- Go `SetupLogging`: `SetConsoleLevel`; `SetFileLevel`; `InitDefaultLogFile`,
returning the result of the final step. -/
def setupLogging (consoleLogLevel fileLogLevel : LogLevel)
    (wd : Except String String) (openErr : Option String) (s : State) :
    State × Option String :=
  let s1 := setConsoleLevel consoleLogLevel s
  let s2 := setFileLevel fileLogLevel s1
  initDefaultLogFile wd openErr s2

/-- Go `Close`: `closeOnce.Do(func() { if logFile != nil { logFile.Close() } })`.
The `sync.Once` latch fires at most once for the whole process lifetime;
inside, the current `logFile` handle (if any) is closed.  `logFile` itself
is not reset. -/
def close (s : State) : State :=
  if s.closeOnce then s
  else
    match s.logFile with
    | none => { s with closeOnce := true }
    | some h =>
      { s with closeOnce := true,
               openHandles := s.openHandles.erase h,
               closedHandles := h :: s.closedHandles }

/-! ### Formatting: a model of the `fmt.Sprintf` verbs in play -/

/-- A Go value passed as a variadic `interface{}` argument. -/
inductive GoValue
  | int (n : Int)
  | str (s : String)
deriving DecidableEq, Repr

/-- Default (`%v`) rendering of a value. -/
def GoValue.render : GoValue → String
  | .int n => toString n
  | .str s => s

/-- The `type=value` rendering used by `%!(EXTRA ...)` diagnostics. -/
def GoValue.typed : GoValue → String
  | .int n => "int=" ++ toString n
  | .str s => "string=" ++ s

/-- Apply one format verb to one consumed argument, including Go's
bad-verb diagnostics. -/
def applyVerb (c : Char) (v : GoValue) : String :=
  match c, v with
  | 'd', .int n => toString n
  | 'd', .str s => "%!d(string=" ++ s ++ ")"
  | 's', .str s => s
  | 's', .int n => "%!s(int=" ++ toString n ++ ")"
  | 'v', v => v.render
  | c, v => "%!" ++ String.singleton c ++ "(" ++ v.typed ++ ")"

/-- Core of the `fmt.Sprintf` model on character lists: literal characters
pass through, `%%` is a literal percent, a verb consumes one argument
(`%!x(MISSING)` when exhausted), a trailing `%` yields `%!(NOVERB)`, and
leftover arguments are reported as `%!(EXTRA ...)`. -/
def sprintfAux : List Char → List GoValue → String
  | [], [] => ""
  | [], v :: vs =>
    "%!(EXTRA " ++ String.intercalate ", " ((v :: vs).map GoValue.typed) ++ ")"
  | ['%'], [] => "%!(NOVERB)"
  | ['%'], v :: vs =>
    "%!(NOVERB)" ++
      "%!(EXTRA " ++ String.intercalate ", " ((v :: vs).map GoValue.typed) ++ ")"
  | '%' :: '%' :: rest, vs => "%" ++ sprintfAux rest vs
  | '%' :: c :: rest, [] => "%!" ++ String.singleton c ++ "(MISSING)" ++ sprintfAux rest []
  | '%' :: c :: rest, v :: vs => applyVerb c v ++ sprintfAux rest vs
  | c :: rest, vs => String.singleton c ++ sprintfAux rest vs

/-- Model of `fmt.Sprintf` for the verbs exercised by this package. -/
def sprintf (format : String) (args : List GoValue) : String :=
  sprintfAux format.toList args

/-! ### Dispatch -/

/-- Go `levelToString`: the switch over the open integer level type. -/
def levelToString (level : LogLevel) : String :=
  if level = DEBUG then "DEBUG"
  else if level = INFO then "INFO"
  else if level = ERROR then "ERROR"
  else if level = SUCCESS then "SUCCESS"
  else if level = FAIL then "FAIL"
  else "UNKNOWN"

/-- Go `shouldLog`: `msgLevel >= minLevel`. -/
def shouldLog (msgLevel minLevel : LogLevel) : Bool :=
  decide (msgLevel ≥ minLevel)

/-- The color switch inside `LogMessage`: DEBUG→yellow, INFO→blue,
ERROR and FAIL→red, SUCCESS→green, default→yellow. -/
def colorFor (level : LogLevel) : String :=
  if level = DEBUG then Yellow
  else if level = INFO then Blue
  else if level = ERROR ∨ level = FAIL then Red
  else if level = SUCCESS then Green
  else Yellow

/-- The message rendering at the top of `LogMessage`: formatting is applied
only when at least one variadic argument was supplied. -/
def renderMessage (format : String) (args : List GoValue) : String :=
  if args.length > 0 then sprintf format args else format

/-- What one `LogMessage` call writes: the payload handed to each sink's
`Printf` (the underlying `log.Logger` prepends its own timestamp).  The file
write is tagged with the handle the file logger was bound to. -/
structure Output where
  fileOut    : Option (Handle × String)
  consoleOut : Option String
deriving DecidableEq, Repr

/-- Go `LogMessage`: renders the message, then writes `"| LEVEL | msg"` to the
file sink when its threshold passes and `fileLogger` is non-nil, and the
colored variant to the console sink when its threshold passes and
`consoleLogger` is non-nil.  The state is not mutated. -/
def logMessage (format : String) (level : LogLevel) (args : List GoValue)
    (s : State) : Output :=
  let message := renderMessage format args
  let levelStr := levelToString level
  let fileOut : Option (Handle × String) :=
    match s.fileLogger with
    | some h =>
      if shouldLog level s.fileLevel then
        some (h, "| " ++ levelStr ++ " | " ++ message)
      else none
    | none => none
  let consoleOut : Option String :=
    if shouldLog level s.consoleLevel && s.consoleLogger then
      some (colorFor level ++ "| " ++ levelStr ++ " |" ++ Reset ++ " " ++ message)
    else none
  { fileOut := fileOut, consoleOut := consoleOut }

/-- Go `Debug`: fixed-level wrapper. -/
def Debug (format : String) (args : List GoValue) (s : State) : Output :=
  logMessage format DEBUG args s

/-- Go `Info`: fixed-level wrapper. -/
def Info (format : String) (args : List GoValue) (s : State) : Output :=
  logMessage format INFO args s

/-- Go `Error`: fixed-level wrapper. -/
def Error (format : String) (args : List GoValue) (s : State) : Output :=
  logMessage format ERROR args s

/-- Go `Success`: fixed-level wrapper. -/
def Success (format : String) (args : List GoValue) (s : State) : Output :=
  logMessage format SUCCESS args s

/-- Go `Fail`: fixed-level wrapper. -/
def Fail (format : String) (args : List GoValue) (s : State) : Output :=
  logMessage format FAIL args s

/-! ### Operation sequences -/

/-- One call into the package API; OS outcomes travel with the operation. -/
inductive Op
  | setConsoleLevel (level : LogLevel)
  | setFileLevel (level : LogLevel)
  | setLogFile (path : String) (openErr : Option String)
  | initDefaultLogFile (wd : Except String String) (openErr : Option String)
  | setupLogging (cl fl : LogLevel) (wd : Except String String) (openErr : Option String)
  | close
  | logMessage (format : String) (level : LogLevel) (args : List GoValue)

/-- State transition of one operation (log calls do not mutate state). -/
def step (op : Op) (s : State) : State :=
  match op with
  | .setConsoleLevel l => setConsoleLevel l s
  | .setFileLevel l => setFileLevel l s
  | .setLogFile p oe => (setLogFile p oe s).1
  | .initDefaultLogFile wd oe => (initDefaultLogFile wd oe s).1
  | .setupLogging cl fl wd oe => (setupLogging cl fl wd oe s).1
  | .close => close s
  | .logMessage _ _ _ => s

/-- Run a sequence of operations from a state. -/
def run (ops : List Op) (s : State) : State :=
  ops.foldl (fun st op => step op st) s

/-- The ASCII escape character that begins every ANSI color code. -/
def escChar : Char := Char.ofNat 27

/-- Whether a string contains the ANSI escape character (and hence an ANSI
color code). -/
def containsEsc (str : String) : Bool :=
  str.data.any (fun c => c == escChar)

/-- Modelled from the spec: the sequential composition
`setConsoleThreshold(consoleLevel); setFileThreshold(fileLevel);
initDefaultLogFile()`, returning the error from the last step only. -/
def setupLoggingSpec (consoleLogLevel fileLogLevel : LogLevel)
    (wd : Except String String) (openErr : Option String) (s : State) :
    State × Option String :=
  initDefaultLogFile wd openErr
    (setFileLevel fileLogLevel (setConsoleLevel consoleLogLevel s))

/-! ### Helper lemmas -/

lemma close_closeOnce (s : State) : (close s).closeOnce = true := by
  unfold close
  split
  · assumption
  · split <;> rfl

lemma close_of_closeOnce {s : State} (h : s.closeOnce = true) : close s = s := by
  unfold close
  simp [h]

lemma close_idem (s : State) : close (close s) = close s :=
  close_of_closeOnce (close_closeOnce s)

lemma setLogFile_closeOnce (p : String) (oe : Option String) (s : State) :
    (setLogFile p oe s).1.closeOnce = s.closeOnce := by
  cases oe <;> rfl

lemma initDefaultLogFile_closeOnce (wd : Except String String)
    (oe : Option String) (s : State) :
    (initDefaultLogFile wd oe s).1.closeOnce = s.closeOnce := by
  cases wd with
  | error e => rfl
  | ok dir => exact setLogFile_closeOnce _ oe s

lemma step_closeOnce_mono (op : Op) (s : State) (h : s.closeOnce = true) :
    (step op s).closeOnce = true := by
  cases op with
  | setConsoleLevel l => exact h
  | setFileLevel l => exact h
  | setLogFile p oe =>
    simp only [step]
    rw [setLogFile_closeOnce]
    exact h
  | initDefaultLogFile wd oe =>
    simp only [step]
    rw [initDefaultLogFile_closeOnce]
    exact h
  | setupLogging cl fl wd oe =>
    simp only [step, setupLogging]
    rw [initDefaultLogFile_closeOnce]
    exact h
  | close => exact close_closeOnce s
  | logMessage f l a => exact h

lemma run_closeOnce_mono (ops : List Op) (s : State) (h : s.closeOnce = true) :
    (run ops s).closeOnce = true := by
  induction ops generalizing s with
  | nil => exact h
  | cons op rest ih => exact ih (step op s) (step_closeOnce_mono op s h)

lemma step_closed_inv (op : Op) (s : State)
    (h1 : s.closeOnce = false → s.closedHandles = [])
    (h2 : s.closedHandles.length ≤ 1) :
    ((step op s).closeOnce = false → (step op s).closedHandles = []) ∧
    (step op s).closedHandles.length ≤ 1 := by
  cases op with
  | setConsoleLevel l => exact ⟨h1, h2⟩
  | setFileLevel l => exact ⟨h1, h2⟩
  | setLogFile p oe => cases oe <;> exact ⟨h1, h2⟩
  | initDefaultLogFile wd oe =>
    cases wd with
    | error e => exact ⟨h1, h2⟩
    | ok dir => cases oe <;> exact ⟨h1, h2⟩
  | setupLogging cl fl wd oe =>
    cases wd with
    | error e => exact ⟨h1, h2⟩
    | ok dir => cases oe <;> exact ⟨h1, h2⟩
  | logMessage f l a => exact ⟨h1, h2⟩
  | close =>
    simp only [step]
    by_cases hc : s.closeOnce = true
    · rw [close_of_closeOnce hc]
      exact ⟨h1, h2⟩
    · have hc' : s.closeOnce = false := by simpa using hc
      have he := h1 hc'
      cases hf : s.logFile with
      | none => simp [close, hc', hf, he]
      | some hd => simp [close, hc', hf, he]

lemma run_closed_inv (ops : List Op) (s : State)
    (h1 : s.closeOnce = false → s.closedHandles = [])
    (h2 : s.closedHandles.length ≤ 1) :
    ((run ops s).closeOnce = false → (run ops s).closedHandles = []) ∧
    (run ops s).closedHandles.length ≤ 1 := by
  induction ops generalizing s with
  | nil => exact ⟨h1, h2⟩
  | cons op rest ih =>
    have h := step_closed_inv op s h1 h2
    exact ih (step op s) h.1 h.2

lemma containsEsc_append (a b : String) :
    containsEsc (a ++ b) = (containsEsc a || containsEsc b) := by
  simp [containsEsc, String.data_append, List.any_append]

lemma containsEsc_levelToString (level : LogLevel) :
    containsEsc (levelToString level) = false := by
  unfold levelToString
  split_ifs <;> decide

lemma pipe_split (a b : String) :
    a ++ " | " ++ b = (a ++ " |") ++ (" " ++ b) := by
  have h : (" | " : String) = " |" ++ " " := by decide
  rw [h, ← String.append_assoc a " |" " ", String.append_assoc (a ++ " |") " " b]

/-! ### Claim theorems -/

/-- C2: the severity levels have the fixed total order
DEBUG < INFO < ERROR < SUCCESS < FAIL by declaration rank, `shouldLog`
is exactly `rank(msgLevel) >= rank(minLevel)`, and a message at a level
strictly below a sink's threshold produces no output on that sink while a
message at or above the threshold does (when the sink is configured). -/
theorem level_order_threshold_filtering (L1 L2 : LogLevel) (h12 : L1 < L2)
    (format : String) (args : List GoValue) (s : State) :
    (DEBUG < INFO ∧ INFO < ERROR ∧ ERROR < SUCCESS ∧ SUCCESS < FAIL) ∧
    (∀ a b : LogLevel, shouldLog a b = true ↔ b ≤ a) ∧
    (s.consoleLevel = L2 → (logMessage format L1 args s).consoleOut = none) ∧
    (s.fileLevel = L2 → (logMessage format L1 args s).fileOut = none) ∧
    (∀ L, L2 ≤ L → s.consoleLevel = L2 → s.consoleLogger = true →
       ((logMessage format L args s).consoleOut).isSome = true) ∧
    (∀ L, L2 ≤ L → s.fileLevel = L2 → s.fileLogger.isSome = true →
       ((logMessage format L args s).fileOut).isSome = true) := by
  refine ⟨⟨by decide, by decide, by decide, by decide⟩, ?_, ?_, ?_, ?_, ?_⟩
  · intro a b
    simp [shouldLog, ge_iff_le]
  · intro h
    simp [logMessage, shouldLog, h, not_le.mpr h12]
  · intro h
    cases hf : s.fileLogger <;>
      simp [logMessage, hf, shouldLog, h, not_le.mpr h12]
  · intro L hL hcl hcg
    simp [logMessage, shouldLog, hcl, hcg, hL]
  · intro L hL hfl hfg
    cases hf : s.fileLogger with
    | none => rw [hf] at hfg; simp at hfg
    | some hd => simp [logMessage, hf, shouldLog, hfl, hL]

/-- Witness for C2 at L1 = INFO, L2 = ERROR with both sinks configured at
threshold ERROR: logging at INFO hits neither sink, logging at FAIL hits
the file sink. -/
theorem level_order_threshold_filtering_witness :
    (logMessage "m" INFO []
      { initState with consoleLogger := true, consoleLevel := ERROR,
                       fileLevel := ERROR,
                       fileLogger := some (0, "out.log") }).consoleOut = none ∧
    ((logMessage "m" FAIL []
      { initState with consoleLogger := true, consoleLevel := ERROR,
                       fileLevel := ERROR,
                       fileLogger := some (0, "out.log") }).fileOut).isSome
      = true := by
  have h := level_order_threshold_filtering INFO ERROR (by decide) "m" []
    { initState with consoleLogger := true, consoleLevel := ERROR,
                     fileLevel := ERROR, fileLogger := some (0, "out.log") }
  exact ⟨h.2.2.1 rfl, h.2.2.2.2.2 FAIL (by decide) rfl rfl⟩

/-- C6: a sink that is unconfigured (nil logger) or whose threshold is not
met is silently skipped, and each sink's output depends only on that
sink's own configuration (no fallback, other sink unaffected); the
`logMessage` model is a total function with no error result and no state
mutation. -/
theorem unconfigured_or_filtered_sink_skipped (format : String)
    (level : LogLevel) (args : List GoValue) (s : State) :
    (s.fileLogger = none → (logMessage format level args s).fileOut = none) ∧
    (shouldLog level s.fileLevel = false →
       (logMessage format level args s).fileOut = none) ∧
    (s.consoleLogger = false →
       (logMessage format level args s).consoleOut = none) ∧
    (shouldLog level s.consoleLevel = false →
       (logMessage format level args s).consoleOut = none) ∧
    (∀ s' : State, s'.consoleLogger = s.consoleLogger →
       s'.consoleLevel = s.consoleLevel →
       (logMessage format level args s').consoleOut
         = (logMessage format level args s).consoleOut) ∧
    (∀ s' : State, s'.fileLogger = s.fileLogger →
       s'.fileLevel = s.fileLevel →
       (logMessage format level args s').fileOut
         = (logMessage format level args s).fileOut) := by
  refine ⟨?_, ?_, ?_, ?_, ?_, ?_⟩
  · intro h
    simp [logMessage, h]
  · intro h
    cases hf : s.fileLogger <;> simp [logMessage, hf, h]
  · intro h
    simp [logMessage, h]
  · intro h
    simp [logMessage, h]
  · intro s' h1 h2
    simp [logMessage, h1, h2]
  · intro s' h1 h2
    simp [logMessage, h1, h2]

/-- Witness for C6: in a state with only the console configured (at level
DEBUG), a DEBUG message is skipped by the unconfigured file sink, and in a
state with console threshold FAIL a DEBUG message is skipped by the
console sink. -/
theorem unconfigured_or_filtered_sink_skipped_witness :
    (logMessage "m" DEBUG []
       { initState with consoleLogger := true }).fileOut = none ∧
    (logMessage "m" DEBUG []
       { initState with consoleLogger := true,
                        consoleLevel := FAIL }).consoleOut = none := by
  refine ⟨(unconfigured_or_filtered_sink_skipped "m" DEBUG []
            { initState with consoleLogger := true }).1 rfl, ?_⟩
  exact (unconfigured_or_filtered_sink_skipped "m" DEBUG []
          { initState with consoleLogger := true,
                           consoleLevel := FAIL }).2.2.2.1 (by decide)

/-- C7 (frame): `setFileLevel` updates only the file threshold, leaving the
file logger, console threshold and console logger (and all resource state)
unchanged; `setConsoleLevel` sets the console threshold and
unconditionally (re)initializes the console logger, leaving the file
threshold and file sink unchanged. -/
theorem threshold_setters_frame (level : LogLevel) (s : State) :
    ((setFileLevel level s).fileLevel = level ∧
     (setFileLevel level s).consoleLevel = s.consoleLevel ∧
     (setFileLevel level s).consoleLogger = s.consoleLogger ∧
     (setFileLevel level s).fileLogger = s.fileLogger ∧
     (setFileLevel level s).logFile = s.logFile ∧
     (setFileLevel level s).openHandles = s.openHandles ∧
     (setFileLevel level s).closedHandles = s.closedHandles ∧
     (setFileLevel level s).closeOnce = s.closeOnce) ∧
    ((setConsoleLevel level s).consoleLevel = level ∧
     (setConsoleLevel level s).consoleLogger = true ∧
     (setConsoleLevel level s).fileLevel = s.fileLevel ∧
     (setConsoleLevel level s).fileLogger = s.fileLogger ∧
     (setConsoleLevel level s).logFile = s.logFile ∧
     (setConsoleLevel level s).openHandles = s.openHandles ∧
     (setConsoleLevel level s).closedHandles = s.closedHandles ∧
     (setConsoleLevel level s).closeOnce = s.closeOnce) :=
  ⟨⟨rfl, rfl, rfl, rfl, rfl, rfl, rfl, rfl⟩,
   ⟨rfl, rfl, rfl, rfl, rfl, rfl, rfl, rfl⟩⟩

/-- C8: `setupLogging(consoleLevel, fileLevel)` equals the sequential
composition `setConsoleThreshold; setFileThreshold; initDefaultLogFile`
(the spec-side definition `setupLoggingSpec`), and its returned error is
exactly the result of the final `initDefaultLogFile` step. -/
theorem setupLogging_is_sequential_composition (cl fl : LogLevel)
    (wd : Except String String) (openErr : Option String) (s : State) :
    setupLogging cl fl wd openErr s = setupLoggingSpec cl fl wd openErr s ∧
    (setupLogging cl fl wd openErr s).2 =
      (initDefaultLogFile wd openErr
        (setFileLevel fl (setConsoleLevel cl s))).2 :=
  ⟨rfl, rfl⟩

/-- C9: when neither sink is configured (console logger nil as in the
zero-value state, file logger nil), `logMessage` and every convenience
wrapper write nothing to either sink; both sinks are nil-guarded, so the
calls are total (no panic). -/
theorem nil_sinks_no_output (format : String) (level : LogLevel)
    (args : List GoValue) (s : State)
    (hc : s.consoleLogger = false) (hf : s.fileLogger = none) :
    logMessage format level args s = { fileOut := none, consoleOut := none } ∧
    Debug format args s = { fileOut := none, consoleOut := none } ∧
    Info format args s = { fileOut := none, consoleOut := none } ∧
    Error format args s = { fileOut := none, consoleOut := none } ∧
    Success format args s = { fileOut := none, consoleOut := none } ∧
    Fail format args s = { fileOut := none, consoleOut := none } ∧
    initState.consoleLogger = false ∧ initState.fileLogger = none := by
  refine ⟨?_, ?_, ?_, ?_, ?_, ?_, rfl, rfl⟩ <;>
    simp [logMessage, Debug, Info, Error, Success, Fail, hc, hf]

/-- Witness for C9: in the zero-value initial state a log call with a
`%`-laden template produces no output at all. -/
theorem nil_sinks_no_output_witness :
    logMessage "50% done" INFO [] initState
      = { fileOut := none, consoleOut := none } :=
  (nil_sinks_no_output "50% done" INFO [] initState rfl rfl).1

/-- C3: with zero variadic arguments the template is reproduced verbatim
as the message (so a literal `%` raises no formatting fault, unlike
running it through `sprintf`, which yields a `%!(NOVERB)` diagnostic);
with at least one argument the message is the printf-style substitution;
every convenience wrapper is a fixed-level call into `logMessage`. -/
theorem zero_args_skips_formatting (format : String) (args : List GoValue)
    (hargs : args ≠ []) :
    renderMessage format [] = format ∧
    renderMessage format args = sprintf format args ∧
    renderMessage "100%" [] = "100%" ∧
    sprintf "100%" [] = "100%!(NOVERB)" ∧
    (∀ (level : LogLevel) (s : State) (hd : Handle) (line : String),
       (logMessage format level [] s).fileOut = some (hd, line) →
       line = "| " ++ levelToString level ++ " | " ++ format) ∧
    (∀ (level : LogLevel) (s : State) (hd : Handle) (line : String),
       (logMessage format level args s).fileOut = some (hd, line) →
       line = "| " ++ levelToString level ++ " | " ++ sprintf format args) ∧
    Debug format args = logMessage format DEBUG args ∧
    Info format args = logMessage format INFO args ∧
    Error format args = logMessage format ERROR args ∧
    Success format args = logMessage format SUCCESS args ∧
    Fail format args = logMessage format FAIL args := by
  have hlen : 0 < args.length := List.length_pos.mpr hargs
  refine ⟨by simp [renderMessage], by simp [renderMessage, hlen],
          by decide, by decide, ?_, ?_, rfl, rfl, rfl, rfl, rfl⟩
  · intro level s hd line hout
    cases hf : s.fileLogger with
    | none => simp [logMessage, hf] at hout
    | some h0 =>
      simp [logMessage, hf, renderMessage] at hout
      exact hout.2.2.symm
  · intro level s hd line hout
    cases hf : s.fileLogger with
    | none => simp [logMessage, hf] at hout
    | some h0 =>
      simp [logMessage, hf, renderMessage, hlen] at hout
      exact hout.2.2.symm

/-- Witness for C3 at a concrete template and argument list. -/
theorem zero_args_skips_formatting_witness :
    renderMessage "x=%d" [] = "x=%d" ∧
    renderMessage "x=%d" [GoValue.int 42] = sprintf "x=%d" [GoValue.int 42] ∧
    sprintf "x=%d" [GoValue.int 42] = "x=42" ∧
    sprintf "100%" [] = "100%!(NOVERB)" := by
  have h := zero_args_skips_formatting "x=%d" [GoValue.int 42] (by decide)
  exact ⟨h.1, h.2.1, by decide, h.2.2.2.1⟩

/-- C5: a file line passing the threshold has the shape
`| LEVEL | message` and carries no ANSI escape (when the message itself
has none), the console line is the same text wrapped in the level's color
code and a reset, and the color mapping is DEBUG→yellow, INFO→blue,
ERROR and FAIL→red, SUCCESS→green, anything unrecognized→yellow. -/
theorem sink_line_shapes (format : String) (level : LogLevel)
    (args : List GoValue) (s : State) :
    (∀ (hd : Handle) (line : String),
       (logMessage format level args s).fileOut = some (hd, line) →
       line = "| " ++ levelToString level ++ " | " ++ renderMessage format args ∧
       (containsEsc (renderMessage format args) = false →
          containsEsc line = false)) ∧
    (∀ line : String,
       (logMessage format level args s).consoleOut = some line →
       line = colorFor level ++ "| " ++ levelToString level ++ " |" ++ Reset
                ++ " " ++ renderMessage format args) ∧
    (∀ (hd : Handle) (lineF lineC : String),
       (logMessage format level args s).fileOut = some (hd, lineF) →
       (logMessage format level args s).consoleOut = some lineC →
       ∃ head tail, lineF = head ++ tail ∧
         lineC = colorFor level ++ head ++ Reset ++ tail) ∧
    (colorFor DEBUG = Yellow ∧ colorFor INFO = Blue ∧ colorFor ERROR = Red ∧
     colorFor FAIL = Red ∧ colorFor SUCCESS = Green) ∧
    (∀ l : LogLevel, l ≠ DEBUG → l ≠ INFO → l ≠ ERROR → l ≠ FAIL →
       l ≠ SUCCESS → colorFor l = Yellow) := by
  refine ⟨?_, ?_, ?_, ⟨by decide, by decide, by decide, by decide, by decide⟩, ?_⟩
  · intro hd line hout
    cases hf : s.fileLogger with
    | none => simp [logMessage, hf] at hout
    | some h0 =>
      simp [logMessage, hf] at hout
      refine ⟨hout.2.2.symm, ?_⟩
      intro hm
      rw [← hout.2.2]
      have c1 : containsEsc "| " = false := by decide
      have c2 : containsEsc " | " = false := by decide
      simp [containsEsc_append, containsEsc_levelToString, hm, c1, c2]
  · intro line hout
    simp [logMessage] at hout
    exact hout.2.symm
  · intro hd lineF lineC houtF houtC
    cases hf : s.fileLogger with
    | none => simp [logMessage, hf] at houtF
    | some h0 =>
      simp [logMessage, hf] at houtF houtC
      refine ⟨"| " ++ levelToString level ++ " |",
              " " ++ renderMessage format args, ?_, ?_⟩
      · rw [← houtF.2.2]
        exact pipe_split ("| " ++ levelToString level) (renderMessage format args)
      · rw [← houtC.2]
        simp [String.append_assoc]
  · intro l h1 h2 h3 h4 h5
    simp [colorFor, h1, h2, h3, h4, h5]

/-- Witness for C5: concrete SUCCESS line in a fully configured state. -/
theorem sink_line_shapes_witness :
    ("| SUCCESS | done" : String)
      = "| " ++ levelToString SUCCESS ++ " | " ++ renderMessage "done" [] ∧
    containsEsc "| SUCCESS | done" = false ∧
    ("\x1b[32m| SUCCESS |\x1b[0m done" : String)
      = colorFor SUCCESS ++ "| " ++ levelToString SUCCESS ++ " |" ++ Reset
          ++ " " ++ renderMessage "done" [] := by
  have h := sink_line_shapes "done" SUCCESS []
    { initState with fileLogger := some (0, "out.log"), consoleLogger := true }
  have h1 := h.1 (0, "out.log") "| SUCCESS | done" (by decide)
  have h2 := h.2.1 "\x1b[32m| SUCCESS |\x1b[0m done" (by decide)
  exact ⟨h1.1, h1.2 (by decide), h2⟩

/-- C4: `close` is idempotent and a no-op after the first invocation; when
no file was ever opened it closes nothing; over any operation sequence
from the initial state at most one close event ever happens (no
double-close), and when a file is configured the first `close` releases
exactly that handle once.  The model `close` is a total function: it
cannot fail or panic. -/
theorem close_idempotent_single_release (s : State) (ops : List Op) :
    close (close s) = close s ∧
    (s.logFile = none → (close s).openHandles = s.openHandles ∧
       (close s).closedHandles = s.closedHandles) ∧
    (run ops initState).closedHandles.length ≤ 1 ∧
    (∀ hd : Handle, s.closeOnce = false → s.logFile = some hd →
       (close s).closedHandles = hd :: s.closedHandles) ∧
    (s.closeOnce = true → close s = s) := by
  refine ⟨close_idem s, ?_, ?_, ?_, fun h => close_of_closeOnce h⟩
  · intro hf
    by_cases hc : s.closeOnce = true
    · rw [close_of_closeOnce hc]
      exact ⟨rfl, rfl⟩
    · have hc' : s.closeOnce = false := by simpa using hc
      constructor <;> simp [close, hc', hf]
  · exact (run_closed_inv ops initState (fun _ => rfl) (by simp [initState])).2
  · intro hd hc hf
    simp [close, hc, hf]

/-- Witness for C4: double `close` on the initial state is the single
`close`, it releases nothing, and a sequence that opens a file and closes
twice records exactly one close event. -/
theorem close_idempotent_single_release_witness :
    close (close initState) = close initState ∧
    (close initState).openHandles = initState.openHandles ∧
    (close initState).closedHandles = initState.closedHandles ∧
    (run [Op.setLogFile "a.log" none, Op.close, Op.close]
       initState).closedHandles.length ≤ 1 := by
  have h := close_idempotent_single_release initState
    [Op.setLogFile "a.log" none, Op.close, Op.close]
  have h2 := h.2.1 rfl
  exact ⟨h.1, h2.1, h2.2, h.2.2.1⟩

/-- C10: the close guard is a one-shot latch for the whole process: after
any prefix of operations followed by one `close`, every later `close`
(after arbitrary further operations, including reopening a file with
`setLogFile`) leaves the state unchanged and closes no handle. -/
theorem close_latch_is_process_wide (pre post : List Op) (s : State) :
    (run post (close (run pre s))).closeOnce = true ∧
    close (run post (close (run pre s))) = run post (close (run pre s)) ∧
    (close (run post (close (run pre s)))).closedHandles
      = (run post (close (run pre s))).closedHandles ∧
    (close (run post (close (run pre s)))).openHandles
      = (run post (close (run pre s))).openHandles := by
  have h1 : (run post (close (run pre s))).closeOnce = true :=
    run_closeOnce_mono post _ (close_closeOnce _)
  have h2 := close_of_closeOnce h1
  exact ⟨h1, h2, by rw [h2], by rw [h2]⟩

/-- C1 fails on the source: after `SetLogFile("a.log")` then
`SetLogFile("b.log")` (both opens succeeding) the dispatcher holds TWO
open handles — the first descriptor is never closed, violating the
at-most-one-open-handle invariant — although subsequent log lines do go
only to the second file. -/
theorem setLogFile_twice_leaks_first_handle :
    ((setLogFile "b.log" none
       (setLogFile "a.log" none initState).1).1.openHandles
      = [(1, "b.log"), (0, "a.log")]) ∧
    ((setLogFile "b.log" none
       (setLogFile "a.log" none initState).1).1.closedHandles = []) ∧
    ((setLogFile "b.log" none
       (setLogFile "a.log" none initState).1).1.fileLogger
      = some (1, "b.log")) ∧
    ((logMessage "m" FAIL []
       (setLogFile "b.log" none
         (setLogFile "a.log" none initState).1).1).fileOut
      = some ((1, "b.log"), "| FAIL | m")) := by
  refine ⟨rfl, rfl, rfl, ?_⟩
  decide

end Logger
